import Mathlib

/-!
Shallow embedding of the VisionAI backend (FastAPI + WebSocket emotion
classifier) for checking its specification.

Sources embedded:
- `app/utils/image_processing.py` (`preprocess_image`)
- `app/services/ml_service.py` (`MLService.predict`, `EMOTION_CLASSES`)
- `app/services/prediction_service.py` (`PredictionService.predict_emotion`,
  `_get_active_model`, `_save_prediction`, `EMOTION_NAME_TO_ID`)
- `app/services/auth_service.py` (token issuance/verification, user auth)
- `app/api/routes/predictions.py` (`POST /predict` handler)
- `app/api/routes/auth.py` (`POST /auth/login` handler)
- `app/main.py` (WebSocket command loop, `handle_predict`)

External libraries (PIL, Keras, SQLAlchemy commit/rollback, bcrypt, jose)
are modelled as an explicit environment `Env` of pure functions; machine
floats are modelled as rationals.
-/

namespace VisionAI

/-- Python exception classes that matter to the control flow of the
embedded handlers. `valueError` covers `ValueError` and its subclass
pydantic `ValidationError`; `typeError` is `TypeError` (e.g. calling a
function with an unexpected keyword argument); `exception` is any other
`Exception`. -/
inductive PyErr where
  | valueError
  | typeError
  | exception
deriving DecidableEq, Repr

/-- A decoded PIL image after `convert("RGB")`: a `width × height` grid of
3-channel uint8 pixels. -/
structure RawImage where
  width : Nat
  height : Nat
  px : Nat → Nat → Fin 3 → Fin 256

/-- A numpy array: an explicit shape plus a value for every multi-index
(indices outside the shape read as 0). -/
structure NpArray where
  shape : List Nat
  val : List Nat → ℚ

/-- One row of the `users` table (`app/models/database_models.py`). -/
structure UserRow where
  user_id : Nat
  username : String
  hashed_password : String
  is_active : Bool
deriving DecidableEq, Repr

/-- One row of the `model_version` table. -/
structure ModelVersionRow where
  model_id : Nat
  model_version_tag : String
  model_filename : String
  model_status : String
deriving DecidableEq, Repr

/-- One row of the `predictions_log` table. The ORM model declares a
nullable `user` column (`database_models.py` line 32); `_save_prediction`
never sets it, so it is `none` on every inserted row. -/
structure PredictionsLogRow where
  emotion_id : Nat
  confidence : ℚ
  model_id : Nat
  processing_time_ms : Nat
  source_ip : Option String
  user : Option String
deriving DecidableEq, Repr

/-- The relational store reachable from one session, plus two fault flags
standing for the external database raising on SELECT and on INSERT/commit,
and a counter of attempted log inserts. -/
structure DbState where
  modelRows : List ModelVersionRow
  logRows : List PredictionsLogRow
  users : List UserRow
  queryRaises : Bool
  saveRaises : Bool
  saveAttempts : Nat
deriving DecidableEq, Repr

/-- A JWT as the jose library sees it after parsing: claims, an `exp`
instant, and the key that signed it (signature verification succeeds iff
the verifying key equals the signing key). -/
structure JwtToken where
  claims : List (String × String)
  exp : Nat
  key : String
deriving DecidableEq, Repr

/-- Behaviour of the external libraries and the ambient runtime, as pure
functions: PIL decode (`Image.open` + `convert("RGB")`, `none` = the bytes
do not decode), PIL `resize((96,96))` of an RGB image (output is again
uint8 RGB, here 96×96 by construction), the loaded Keras model

(`model.predict(...)[0]`, a vector of 7 class scores), the measured
elapsed milliseconds, `base64.b64decode` (`none` = raises), jose string
parsing of a compact JWT (`none` = malformed), the current time in
minutes, and passlib bcrypt hash/verify. -/
structure Env where
  decodeImage : List Nat → Option RawImage
  resize96 : RawImage → (Fin 96 → Fin 96 → Fin 3 → Fin 256)
  model : NpArray → (Fin 7 → ℚ)
  elapsedMs : Nat
  b64decode : String → Option (List Nat)
  tokenOfString : String → Option JwtToken
  now : Nat
  pwdHash : String → String
  pwdVerify : String → String → Bool

/-- The (1, 96, 96, 3) float tensor `preprocess_image` builds from a
decoded image: resize to 96×96, `np.array(...) / 255.0`, `expand_dims`. -/
def tensorOfImage (env : Env) (image : RawImage) : NpArray :=
  { shape := [1, 96, 96, 3]
    val := fun idx =>
      match idx with
      | [0, i, j, c] =>
        if hi : i < 96 then
          if hj : j < 96 then
            if hc : c < 3 then
              ((env.resize96 image ⟨i, hi⟩ ⟨j, hj⟩ ⟨c, hc⟩ : Nat) : ℚ) / 255
            else 0
          else 0
        else 0
      | _ => 0 }

/-- `app/utils/image_processing.py::preprocess_image`: decode with PIL,
convert to RGB, resize to 96×96, scale to [0,1], add a batch axis. Any
failure in the `try` block is re-raised as `ValueError`. -/
def preprocess_image (env : Env) (image_bytes : List Nat) :
    Except PyErr NpArray :=
  match env.decodeImage image_bytes with
  | none => .error .valueError
  | some image => .ok (tensorOfImage env image)

/-- `MLService.EMOTION_CLASSES` (`ml_service.py` lines 26-34). -/
def EMOTION_CLASSES : List String :=
  ["angry", "disgust", "fear", "happy", "neutral", "sad", "surprise"]

/-- `np.argmax` over a length-7 vector: the first index attaining the
maximum. -/
def argmax7 (p : Fin 7 → ℚ) : Fin 7 :=
  (List.finRange 7).foldl (fun best i => if p i > p best then i else best) 0

/-- `MLService.predict` (`ml_service.py` lines 103-160) with the model
loaded: reject any array whose shape is not exactly (1, 96, 96, 3) with
`ValueError`; otherwise run the model on it and return
`(EMOTION_CLASSES[argmax], probabilities[argmax], probabilities)`. The
out-of-range check on input values only logs a warning. An exception
raised by the model itself would be re-raised as a plain `Exception`,
never as `ValueError`; the model is modelled as total. -/
def ml_predict (env : Env) (image_array : NpArray) :
    Except PyErr (String × ℚ × (Fin 7 → ℚ)) :=
  if image_array.shape = [1, 96, 96, 3] then
    let predictions := env.model image_array
    let idx := argmax7 predictions
    .ok (EMOTION_CLASSES.getD idx.val "", predictions idx, predictions)
  else .error .valueError

/-- Python `round(x)` on a rational: nearest integer, ties to even
(banker's rounding). -/
def roundHalfEven (q : ℚ) : ℤ :=
  if q - ⌊q⌋ < 1/2 then ⌊q⌋
  else if q - ⌊q⌋ > 1/2 then ⌊q⌋ + 1
  else if ⌊q⌋ % 2 = 0 then ⌊q⌋ else ⌊q⌋ + 1

/-- Python `round(x, 4)`. -/
def pyRound4 (q : ℚ) : ℚ := (roundHalfEven (q * 10000) : ℚ) / 10000

/-- The `PredictionResponse` pydantic model (`app/models/schemas.py`
lines 8-13). -/
structure PredictionResponse where
  emotion_name : String
  confidence : ℚ
  model_version_tag : String
  processing_time_ms : Nat
deriving DecidableEq, Repr

/-- Constructing a `PredictionResponse` runs pydantic validation:
`confidence` (already rounded by the caller) must satisfy `ge=0, le=1`
and `processing_time_ms` must satisfy `gt=0`. A pydantic
`ValidationError` is a `ValueError`. -/
def mkPredictionResponse (emotion_name : String) (confidence : ℚ)
    (model_version_tag : String) (processing_time_ms : Nat) :
    Except PyErr PredictionResponse :=
  if 0 ≤ confidence ∧ confidence ≤ 1 ∧ 0 < processing_time_ms then
    .ok ⟨emotion_name, confidence, model_version_tag, processing_time_ms⟩
  else .error .valueError

/-- `PredictionService.EMOTION_NAME_TO_ID` (`prediction_service.py`
lines 22-30). -/
def EMOTION_NAME_TO_ID : List (String × Nat) :=
  [("angry", 1), ("disgust", 2), ("fear", 3), ("happy", 4),
   ("neutral", 5), ("sad", 6), ("surprise", 7)]

/-- `PredictionService._get_active_model` (`prediction_service.py`
lines 133-155): `SELECT ... WHERE model_status = '01' LIMIT 1`; any
exception from the query is caught and turned into `None`. -/
def get_active_model (db : DbState) : Option ModelVersionRow :=
  if db.queryRaises then none
  else (db.modelRows.filter (fun m => m.model_status = "01")).head?

/-- `PredictionService._save_prediction` (`prediction_service.py`
lines 157-195): build a `PredictionsLog` row (its ORM `user` column is
never set), `add` + `commit` + `refresh`; on failure roll back and
re-raise. Returns the outcome together with the database state after the
call. -/
def save_prediction (db : DbState) (emotion_id : Nat) (confidence : ℚ)
    (model_id : Nat) (processing_time_ms : Nat) (source_ip : Option String) :
    Except PyErr Unit × DbState :=
  if db.saveRaises then
    (.error .exception, { db with saveAttempts := db.saveAttempts + 1 })
  else
    (.ok (), { db with
      saveAttempts := db.saveAttempts + 1,
      logRows := db.logRows ++
        [⟨emotion_id, confidence, model_id, processing_time_ms,
          source_ip, none⟩] })

/-- `PredictionService.predict_emotion` (`prediction_service.py`
lines 32-131): preprocess; classify; look up the active model and fall
back to tag "v1.0.0" / id 1 when there is none; map the label to its
taxonomy id (`if not emotion_id` — Python falsiness, so `None` or `0`
raises `ValueError`); attempt to save, swallowing any save error; build
the response with the confidence rounded to 4 digits. `ValueError` from
any step is re-raised as is; any other exception is re-raised wrapped as
a plain `Exception`. -/
def predict_emotion (env : Env) (db : DbState) (image_bytes : List Nat)
    (source_ip : Option String) :
    Except PyErr PredictionResponse × DbState :=
  match preprocess_image env image_bytes with
  | .error _ => (.error .valueError, db)
  | .ok image_array =>
    match ml_predict env image_array with
    | .error _ => (.error .valueError, db)
    | .ok (emotion_name, confidence, _) =>
      let total_time_ms := env.elapsedMs
      let modelPair :=
        match get_active_model db with
        | none => ("v1.0.0", 1)
        | some mv => (mv.model_version_tag, mv.model_id)
      let emotion_id := (EMOTION_NAME_TO_ID.lookup emotion_name).getD 0
      if emotion_id = 0 then (.error .valueError, db)
      else
        let saved := save_prediction db emotion_id confidence modelPair.2
          total_time_ms source_ip
        match mkPredictionResponse emotion_name (pyRound4 confidence)
            modelPair.1 total_time_ms with
        | .ok resp => (.ok resp, saved.2)
        | .error _ => (.error .valueError, saved.2)

/-- `auth_service.py` line 16. -/
def SECRET_KEY : String := "visionai_secret_key_2025_change_this_in_production"

/-- `auth_service.py` line 18: tokens live 24 hours (in minutes). -/
def ACCESS_TOKEN_EXPIRE_MINUTES : Nat := 60 * 24

/-- `AuthService.create_access_token` (`auth_service.py` lines 38-52):
copy the claims, add `exp = now + delta` (default
`ACCESS_TOKEN_EXPIRE_MINUTES`), sign with `SECRET_KEY`. -/
def create_access_token (data : List (String × String))
    (expires_delta : Option Nat) (now : Nat) : JwtToken :=
  { claims := data
    exp := now + expires_delta.getD ACCESS_TOKEN_EXPIRE_MINUTES
    key := SECRET_KEY }

/-- `AuthService.verify_token` (`auth_service.py` lines 54-62):
`jwt.decode(token, SECRET_KEY, ...)` returns the claims when the
signature matches `SECRET_KEY` and the token has not expired; any
`JWTError` is caught and turned into `None`. -/
def verify_token (token : JwtToken) (now : Nat) :
    Option (List (String × String)) :=
  if token.key = SECRET_KEY ∧ now < token.exp then some token.claims
  else none

/-- `AuthService.get_user_by_username` (`auth_service.py` lines 64-67):
`SELECT ... WHERE username = ... LIMIT 1`. -/
def get_user_by_username (users : List UserRow) (username : String) :
    Option UserRow :=
  users.find? (fun u => u.username = username)

/-- `AuthService.authenticate_user` (`auth_service.py` lines 88-102):
look the user up, check the password against the stored bcrypt hash,
check the active flag. -/
def authenticate_user (env : Env) (users : List UserRow)
    (username password : String) : Option UserRow :=
  match get_user_by_username users username with
  | none => none
  | some user =>
    if ¬ env.pwdVerify password user.hashed_password then none
    else if ¬ user.is_active then none
    else some user

/-- Outcome of `POST /auth/login`. -/
inductive LoginResult where
  | token (t : JwtToken)
  | unauthorized
deriving DecidableEq, Repr

/-- `app/api/routes/auth.py::login` (lines 75-115): authenticate; on
failure raise HTTP 401 with no token; on success issue a token with
claims `{"sub": username}` and the 24-hour expiry. -/
def login (env : Env) (users : List UserRow) (username password : String) :
    LoginResult :=
  match authenticate_user env users username password with
  | none => .unauthorized
  | some user =>
    .token (create_access_token [("sub", user.username)]
      (some ACCESS_TOKEN_EXPIRE_MINUTES) env.now)

/-- The parameter names `PredictionService.predict_emotion` accepts
besides `self` (`prediction_service.py` lines 32-37). -/
def predict_emotion_params : List String := ["image_bytes", "db", "source_ip"]

/-- The keyword arguments both transports pass to
`prediction_service.predict_emotion` (`routes/predictions.py`
lines 120-125 and `main.py` lines 225-230). -/
def transport_predict_kwargs : List String :=
  ["image_bytes", "db", "source_ip", "user_id"]

/-- Python call semantics for `prediction_service.predict_emotion(...)`
with keyword arguments: a keyword that is not a declared parameter makes
the call itself raise `TypeError` before the body runs. -/
def call_predict_emotion (kwargs : List String) (env : Env) (db : DbState)
    (image_bytes : List Nat) (source_ip : Option String) :
    Except PyErr PredictionResponse × DbState :=
  if kwargs.all (fun k => predict_emotion_params.contains k) then
    predict_emotion env db image_bytes source_ip
  else (.error .typeError, db)

/-- Outcome of the HTTP `POST /predict` handler: a 200 response body, or
a raised `HTTPException` with its status code. -/
inductive HttpOut where
  | success (r : PredictionResponse)
  | httpError (status : Nat)
deriving DecidableEq, Repr

/-- `routes/predictions.py` line 95. -/
def ALLOWED_UPLOAD_TYPES : List String :=
  ["image/jpeg", "image/png", "image/webp", "image/jpg"]

/-- `app/api/routes/predictions.py::predict_emotion` (lines 45-150), the
HTTP transport: reject a content type outside the allow-list with 400;
inside the `try` block an empty body raises `HTTPException(400)`, which
the handler's own `except Exception` swallows and converts to 500; call
the service with the keyword arguments of `transport_predict_kwargs`
(including `user_id=current_user`); map `ValueError` to 400 and any other
exception to 500. -/
def route_predict (env : Env) (db : DbState) (contentType : String)
    (body : List Nat) (clientIp : Option String)
    (current_user : Option Nat) : HttpOut × DbState :=
  if ¬ ALLOWED_UPLOAD_TYPES.contains contentType then (.httpError 400, db)
  else if body.length = 0 then (.httpError 500, db)
  else
    match call_predict_emotion transport_predict_kwargs env db body clientIp with
    | (.ok r, db2) => (.success r, db2)
    | (.error .valueError, db2) => (.httpError 400, db2)
    | (.error _, db2) => (.httpError 500, db2)

/-- Python `str.lower()` on the ASCII command strings the WebSocket loop
compares against: lower-case every character. -/
def pyLower (s : String) : String := ⟨s.data.map Char.toLower⟩

/-- A JSON value, as produced by `json.loads`. -/
inductive Json where
  | null
  | bool (b : Bool)
  | num (n : ℚ)
  | str (s : String)
  | arr (elems : List Json)
  | obj (fields : List (String × Json))

/-- A reply frame sent over the WebSocket, by its `type` discriminator
(`main.py`). Success payload details other than the prediction itself are
not needed by any claim. -/
inductive WsReply where
  | connection
  | error (message : String)
  | prediction (resp : PredictionResponse) (user_id : Option Nat)
  | emotions
  | model_info
  | health
deriving DecidableEq, Repr

/-- The `type` field of a reply frame. -/
def WsReply.rtype : WsReply → String
  | .connection => "connection"
  | .error _ => "error"
  | .prediction _ _ => "prediction"
  | .emotions => "emotions"
  | .model_info => "model_info"
  | .health => "health"

/-- The user-id extraction block of `main.py::handle_predict`
(lines 184-199): if a `token` field is present, parse and verify it and
look the `sub` username up; on any failure (invalid token, missing `sub`,
unknown user, non-string token) the prediction proceeds anonymously. -/
def ws_user_id (env : Env) (db : DbState)
    (fields : List (String × Json)) : Option Nat :=
  match fields.lookup "token" with
  | some (Json.str s) =>
    match env.tokenOfString s with
    | none => none
    | some tok =>
      match verify_token tok env.now with
      | none => none
      | some payload =>
        match payload.lookup "sub" with
        | none => none
        | some username =>
          match get_user_by_username db.users username with
          | none => none
          | some user => some user.user_id
  | _ => none

/-- `main.py::handle_predict` (lines 166-254): require an `image` field;
extract an optional user id from the token; base64-decode the image (any
failure there is caught and answered with a decode error reply); reject
an empty image; call the service with the keyword arguments of
`transport_predict_kwargs` (including `user_id=user_id`); answer with a
`prediction` reply on success, with the `ValueError` text on validation
failure, and with a generic error reply on any other exception. Every
path sends exactly one reply and returns to the message loop. -/
def handle_predict (env : Env) (db : DbState)
    (fields : List (String × Json)) (clientIp : Option String) :
    WsReply × DbState :=
  match fields.lookup "image" with
  | none => (.error "Campo image requerido", db)
  | some imageJson =>
    let user_id := ws_user_id env db fields
    let imageBytes :=
      match imageJson with
      | Json.str s => env.b64decode s
      | _ => none
    match imageBytes with
    | none => (.error "Error al decodificar imagen", db)
    | some image_bytes =>
      if image_bytes.length = 0 then (.error "La imagen esta vacia", db)
      else
        match call_predict_emotion transport_predict_kwargs env db
            image_bytes clientIp with
        | (.ok r, db2) => (.prediction r user_id, db2)
        | (.error .valueError, db2) => (.error "ValueError", db2)
        | (.error _, db2) => (.error "Error interno del servidor", db2)

/-- What one iteration of the WebSocket message loop does: the reply sent,
whether the loop continues to the next `receive_text` (false means the
handler fell out of the loop and the connection is being torn down), and
the database state after the message. -/
structure WsStepResult where
  reply : WsReply
  continues : Bool
  db : DbState

/-- One iteration of the message loop of `main.py::websocket_endpoint`
(lines 121-163) on a received text frame, given as `none` when
`json.loads` raises and `some` of the parsed value otherwise. A parse
failure, a non-object message (`.get` raises `AttributeError`) or a
non-string `command` (`.lower()` raises) escapes the `while` loop into
the outer `except Exception`, which sends one error reply and ends the
handler; inside the loop, the four verbs dispatch to their handlers
(which catch their own errors) and anything else gets an unknown-command
error reply, with the loop continuing either way. -/
def ws_step (env : Env) (db : DbState) (clientIp : Option String)
    (frame : Option Json) : WsStepResult :=
  match frame with
  | none => ⟨.error "Error interno del servidor", false, db⟩
  | some (Json.obj fields) =>
    match (fields.lookup "command").getD (Json.str "") with
    | Json.str c =>
      let command := pyLower c
      if command = "predict" then
        let r := handle_predict env db fields clientIp
        ⟨r.1, true, r.2⟩
      else if command = "emotions" then
        ⟨if db.queryRaises then .error "Error al obtener lista de emociones"
          else .emotions, true, db⟩
      else if command = "model_info" then ⟨.model_info, true, db⟩
      else if command = "health" then ⟨.health, true, db⟩
      else ⟨.error ("Comando desconocido: " ++ command), true, db⟩
    | _ => ⟨.error "Error interno del servidor", false, db⟩
  | some _ => ⟨.error "Error interno del servidor", false, db⟩

/-- The label the classifier outputs on a decoded image. -/
def predictedLabel (env : Env) (image : RawImage) : String :=
  EMOTION_CLASSES.getD (argmax7 (env.model (tensorOfImage env image))).val ""

/-- The confidence the classifier outputs on a decoded image. -/
def predictedConf (env : Env) (image : RawImage) : ℚ :=
  env.model (tensorOfImage env image) (argmax7 (env.model (tensorOfImage env image)))

/-- The taxonomy id `predict_emotion` maps the predicted label to. -/
def predictedEmotionId (env : Env) (image : RawImage) : Nat :=
  (EMOTION_NAME_TO_ID.lookup (predictedLabel env image)).getD 0

/-- The model tag `predict_emotion` stamps: the active row's tag, else the
hardcoded fallback. -/
def activeTag (db : DbState) : String :=
  match get_active_model db with
  | none => "v1.0.0"
  | some mv => mv.model_version_tag

/-- The model id `predict_emotion` stamps: the active row's id, else the
hardcoded fallback. -/
def activeId (db : DbState) : Nat :=
  match get_active_model db with
  | none => 1
  | some mv => mv.model_id

/-- A concrete 4×4 decoded image used to instantiate theorems. -/
def testImage : RawImage := ⟨4, 4, fun _ _ _ => (200 : Fin 256)⟩

/-- A concrete environment: every byte string decodes to `testImage`, the
model always scores class 3 ("happy") at 1 and the rest at 0. -/
def testEnv : Env :=
  { decodeImage := fun _ => some testImage
    resize96 := fun _ => fun _ _ _ => (200 : Fin 256)
    model := fun _ => fun i => if i.val = 3 then 1 else 0
    elapsedMs := 5
    b64decode := fun _ => some [104, 105]
    tokenOfString := fun _ => none
    now := 1000
    pwdHash := fun p => p ++ "#hashed"
    pwdVerify := fun p h => h = p ++ "#hashed"
    : Env }

/-- `testEnv` with a decoder that rejects every byte string. -/
def badDecodeEnv : Env := { testEnv with decodeImage := fun _ => none }

/-- An empty, healthy database session. -/
def emptyDb : DbState := ⟨[], [], [], false, false, 0⟩

/-- A database whose INSERT/commit raises. -/
def failingSaveDb : DbState := { emptyDb with saveRaises := true }

/-- A registered, active user whose password under `testEnv.pwdHash`
is "pw". -/
def aliceUser : UserRow := ⟨1, "alice", "pw#hashed", true⟩

theorem roundHalfEven_nonneg (q : ℚ) (h : 0 ≤ q) : 0 ≤ roundHalfEven q := by
  have hf : (0 : ℤ) ≤ ⌊q⌋ := Int.floor_nonneg.mpr h
  unfold roundHalfEven
  split_ifs <;> omega

theorem roundHalfEven_le (q : ℚ) (n : ℤ) (h : q ≤ n) : roundHalfEven q ≤ n := by
  have hf : ⌊q⌋ ≤ n := by
    have := Int.floor_le_floor (α := ℚ) h
    simpa using this
  unfold roundHalfEven
  split_ifs with h1 h2 h3
  · exact hf
  · rcases lt_or_eq_of_le hf with hlt | heq
    · omega
    · exfalso
      rw [heq] at h2
      have hq : q ≤ (n : ℚ) := h
      linarith
  · exact hf
  · have heq : q - ⌊q⌋ = 1/2 := le_antisymm (not_lt.mp h2) (not_lt.mp h1)
    have hcast : (⌊q⌋ : ℚ) < (n : ℚ) := by linarith
    have : ⌊q⌋ < n := by exact_mod_cast hcast
    omega

theorem pyRound4_mem (q : ℚ) (h0 : 0 ≤ q) (h1 : q ≤ 1) :
    0 ≤ pyRound4 q ∧ pyRound4 q ≤ 1 := by
  constructor
  · have := roundHalfEven_nonneg (q * 10000) (by positivity)
    unfold pyRound4
    positivity
  · have hle : roundHalfEven (q * 10000) ≤ (10000 : ℤ) := by
      apply roundHalfEven_le
      push_cast
      nlinarith
    unfold pyRound4
    rw [div_le_one (by norm_num)]
    exact_mod_cast hle

theorem roundHalfEven_intCast (n : ℤ) : roundHalfEven ((n : ℚ)) = n := by
  unfold roundHalfEven
  rw [Int.floor_intCast, sub_self]
  norm_num

theorem pyRound4_one : pyRound4 1 = 1 := by
  have h : (1 : ℚ) * 10000 = ((10000 : ℤ) : ℚ) := by norm_num
  unfold pyRound4
  rw [h, roundHalfEven_intCast]
  norm_num

/-- On the concrete test environment the classifier is certain. -/
theorem predictedConf_testEnv : predictedConf testEnv testImage = 1 := by decide

/-- Every index the argmax can produce maps to a label whose taxonomy id
exists and lies in 1..7. -/
theorem emotionId_of_index (i : Fin 7) :
    ∃ k, EMOTION_NAME_TO_ID.lookup (EMOTION_CLASSES.getD i.val "") = some k ∧
      1 ≤ k ∧ k ≤ 7 := by
  fin_cases i <;> exact ⟨_, rfl, by norm_num, by norm_num⟩

/-- Every index the argmax can produce reads off an actual member of the
label list. -/
theorem emotionClass_getD_mem (i : Fin 7) :
    EMOTION_CLASSES.getD i.val "" ∈ EMOTION_CLASSES := by
  revert i
  decide

/-- Characterisation of the success path of `predict_emotion`: when the
image decodes and the (rounded) confidence passes pydantic validation,
the call returns the response built from the classifier output and the
database state left by the (attempted) save. -/
theorem predict_emotion_ok (env : Env) (db : DbState) (image_bytes : List Nat)
    (source_ip : Option String) (img : RawImage)
    (himg : env.decodeImage image_bytes = some img)
    (hc0 : 0 ≤ pyRound4 (predictedConf env img))
    (hc1 : pyRound4 (predictedConf env img) ≤ 1)
    (ht : 0 < env.elapsedMs) :
    predict_emotion env db image_bytes source_ip =
      (.ok ⟨predictedLabel env img, pyRound4 (predictedConf env img),
        activeTag db, env.elapsedMs⟩,
       (save_prediction db (predictedEmotionId env img)
         (predictedConf env img) (activeId db) env.elapsedMs source_ip).2) := by
  obtain ⟨k, hk, hk1, _⟩ :=
    emotionId_of_index (argmax7 (env.model (tensorOfImage env img)))
  have hpre : preprocess_image env image_bytes =
      Except.ok (tensorOfImage env img) := by
    simp [preprocess_image, himg]
  have hshape : (tensorOfImage env img).shape = [1, 96, 96, 3] := rfl
  have hml : ml_predict env (tensorOfImage env img) =
      Except.ok (predictedLabel env img, predictedConf env img,
        env.model (tensorOfImage env img)) := by
    rw [ml_predict, if_pos hshape]
    rfl
  have hk' : EMOTION_NAME_TO_ID.lookup (predictedLabel env img) = some k := hk
  have hidk : predictedEmotionId env img = k := by
    rw [predictedEmotionId, hk']
    rfl
  simp only [predict_emotion, hpre, hml]
  rw [hk']
  simp only [Option.getD_some]
  rw [if_neg (by omega : ¬ k = 0), hidk]
  rcases hactive : get_active_model db with _ | mv
  · simp only [activeTag, activeId, hactive]
    rw [mkPredictionResponse, if_pos ⟨hc0, hc1, ht⟩]
  · simp only [activeTag, activeId, hactive]
    rw [mkPredictionResponse, if_pos ⟨hc0, hc1, ht⟩]

/-- C4: for every byte string that cannot be decoded as an image,
`predict_emotion` raises `ValueError` and leaves the database untouched
(no log row is created and no persistence operation is attempted). -/
theorem c4_undecodable_bytes_value_error_no_row (env : Env) (db : DbState)
    (image_bytes : List Nat) (source_ip : Option String)
    (h : env.decodeImage image_bytes = none) :
    predict_emotion env db image_bytes source_ip =
      (.error .valueError, db) := by
  simp [predict_emotion, preprocess_image, h]

/-- Witness for C4 at a concrete environment whose decoder rejects the
input: the call fails with `ValueError` and the database is unchanged. -/
theorem c4_undecodable_bytes_value_error_no_row_witness :
    predict_emotion badDecodeEnv emptyDb [0] none =
      (.error PyErr.valueError, emptyDb) :=
  c4_undecodable_bytes_value_error_no_row badDecodeEnv emptyDb [0] none rfl

/-- C6: for every byte string that decodes as a valid image of any
resolution, the normalizer outputs a single-batch tensor of shape
(1, 96, 96, 3) with every value in [0,1]. -/
theorem c6_normalizer_shape_and_range (env : Env) (image_bytes : List Nat)
    (img : RawImage) (h : env.decodeImage image_bytes = some img) :
    ∃ arr, preprocess_image env image_bytes = .ok arr ∧
      arr.shape = [1, 96, 96, 3] ∧
      ∀ idx, 0 ≤ arr.val idx ∧ arr.val idx ≤ 1 := by
  refine ⟨tensorOfImage env img, by simp [preprocess_image, h], rfl, ?_⟩
  intro idx
  unfold tensorOfImage
  dsimp only
  split
  · split_ifs
    · constructor
      · positivity
      · rw [div_le_one (by norm_num)]
        exact_mod_cast Nat.le_of_lt_succ (Fin.isLt _)
    all_goals exact ⟨le_refl 0, by norm_num⟩
  · exact ⟨le_refl 0, by norm_num⟩

/-- Witness for C6 at a concrete decodable input. -/
theorem c6_normalizer_shape_and_range_witness :
    ∃ arr, preprocess_image testEnv [0] = .ok arr ∧
      arr.shape = [1, 96, 96, 3] ∧
      ∀ idx, 0 ≤ arr.val idx ∧ arr.val idx ≤ 1 :=
  c6_normalizer_shape_and_range testEnv [0] testImage rfl

/-- C5: `MLService.predict` fails with `ValueError` iff the input shape
is not exactly (1, 96, 96, 3); on any tensor of that shape it returns the
label at the argmax of the model probability vector over the fixed
ordered label list, that probability as the confidence, and the full
vector. -/
theorem c5_classify_shape_iff_and_argmax (env : Env) (image_array : NpArray) :
    ((∃ e, ml_predict env image_array = .error e) ↔
      image_array.shape ≠ [1, 96, 96, 3]) ∧
    (image_array.shape ≠ [1, 96, 96, 3] →
      ml_predict env image_array = .error .valueError) ∧
    (image_array.shape = [1, 96, 96, 3] →
      ml_predict env image_array =
        .ok (EMOTION_CLASSES.getD (argmax7 (env.model image_array)).val "",
          env.model image_array (argmax7 (env.model image_array)),
          env.model image_array)) := by
  by_cases h : image_array.shape = [1, 96, 96, 3]
  · refine ⟨⟨?_, fun hne => absurd h hne⟩, fun hne => absurd h hne, fun _ => ?_⟩
    · rintro ⟨e, he⟩
      rw [ml_predict, if_pos h] at he
      exact absurd he (by simp)
    · rw [ml_predict, if_pos h]
  · refine ⟨⟨fun _ => h, fun _ => ⟨.valueError, ?_⟩⟩, fun _ => ?_, fun hh => absurd hh h⟩
    · rw [ml_predict, if_neg h]
    · rw [ml_predict, if_neg h]

/-- Witness for C5: a wrong-shape tensor is rejected with `ValueError`
and a (1, 96, 96, 3) tensor is classified by argmax. -/
theorem c5_classify_shape_iff_and_argmax_witness :
    ml_predict testEnv ⟨[2, 2], fun _ => 0⟩ = Except.error PyErr.valueError ∧
    ml_predict testEnv (tensorOfImage testEnv testImage) =
      Except.ok
        (EMOTION_CLASSES.getD
          (argmax7 (testEnv.model (tensorOfImage testEnv testImage))).val "",
        testEnv.model (tensorOfImage testEnv testImage)
          (argmax7 (testEnv.model (tensorOfImage testEnv testImage))),
        testEnv.model (tensorOfImage testEnv testImage)) :=
  ⟨(c5_classify_shape_iff_and_argmax testEnv ⟨[2, 2], fun _ => 0⟩).2.1 (by decide),
   (c5_classify_shape_iff_and_argmax testEnv
     (tensorOfImage testEnv testImage)).2.2 rfl⟩

/-- C10: every label `MLService.predict` can return is a member of
`EMOTION_CLASSES` and has an entry in `EMOTION_NAME_TO_ID` with a nonzero
id in 1..7, so the unrecognized-emotion `ValueError` branch of
`predict_emotion` (guarded by Python falsiness, `if not emotion_id`) is
unreachable for labels produced by the classifier. -/
theorem c10_classifier_labels_have_taxonomy_ids (env : Env)
    (image_array : NpArray) (name : String) (conf : ℚ) (probs : Fin 7 → ℚ)
    (h : ml_predict env image_array = .ok (name, conf, probs)) :
    name ∈ EMOTION_CLASSES ∧
    (EMOTION_NAME_TO_ID.lookup name).getD 0 ≠ 0 ∧
    ∃ k, EMOTION_NAME_TO_ID.lookup name = some k ∧ 1 ≤ k ∧ k ≤ 7 := by
  rw [ml_predict] at h
  by_cases hs : image_array.shape = [1, 96, 96, 3]
  · rw [if_pos hs] at h
    have hname : name =
        EMOTION_CLASSES.getD (argmax7 (env.model image_array)).val "" := by
      simpa using congrArg (fun x => (x.toOption.map Prod.fst).getD "") h.symm
    obtain ⟨k, hk, hk1, hk7⟩ := emotionId_of_index (argmax7 (env.model image_array))
    subst hname
    refine ⟨?_, ?_, k, hk, hk1, hk7⟩
    · exact emotionClass_getD_mem (argmax7 (env.model image_array))
    · rw [hk]
      simpa using by omega
  · rw [if_neg hs] at h
    exact absurd h (by simp)

/-- Witness for C10 at a concrete classification. -/
theorem c10_classifier_labels_have_taxonomy_ids_witness :
    (EMOTION_CLASSES.getD
        (argmax7 (testEnv.model (tensorOfImage testEnv testImage))).val "")
      ∈ EMOTION_CLASSES ∧
    (EMOTION_NAME_TO_ID.lookup
        (EMOTION_CLASSES.getD
          (argmax7 (testEnv.model (tensorOfImage testEnv testImage))).val
          "")).getD 0 ≠ 0 ∧
    ∃ k, EMOTION_NAME_TO_ID.lookup
        (EMOTION_CLASSES.getD
          (argmax7 (testEnv.model (tensorOfImage testEnv testImage))).val "") =
      some k ∧ 1 ≤ k ∧ k ≤ 7 :=
  c10_classifier_labels_have_taxonomy_ids testEnv
    (tensorOfImage testEnv testImage) _ _ _ rfl

/-- C2 (counterexample): a concrete invocation of `predict_emotion` that
returns a successful response while the persistence step raised, so no
PredictionLog row at all was created — refuting "for every invocation
that returns a successful response, exactly one PredictionLog row has
been created for it". -/
theorem c2_success_without_row_counterexample :
    (predict_emotion testEnv failingSaveDb [0] none).1 =
      Except.ok ⟨"happy", 1, "v1.0.0", 5⟩ ∧
    ((predict_emotion testEnv failingSaveDb [0] none).2.logRows = [] ∧
      (predict_emotion testEnv failingSaveDb [0] none).2.saveAttempts = 1) := by
  have h0 : (0 : ℚ) ≤ pyRound4 (predictedConf testEnv testImage) := by
    rw [predictedConf_testEnv, pyRound4_one]
    norm_num
  have h1 : pyRound4 (predictedConf testEnv testImage) ≤ 1 := by
    rw [predictedConf_testEnv, pyRound4_one]
  have hm := predict_emotion_ok testEnv failingSaveDb [0] none testImage rfl
    h0 h1 (by decide)
  rw [hm, predictedConf_testEnv, pyRound4_one]
  exact ⟨rfl, rfl, rfl⟩

/-- C2 (amended): for every invocation of `predict_emotion` that returns
a successful response and whose persistence step does not raise, exactly
one PredictionLog row is appended; its `emotion_id` is the taxonomy id
mapped from the predicted label and lies in 1..7, and (given the model
outputs probabilities in [0,1]) both the stored and the returned
confidence lie in [0,1]. -/
theorem c2_one_row_valid_id_confidence (env : Env) (db : DbState)
    (image_bytes : List Nat) (source_ip : Option String) (img : RawImage)
    (himg : env.decodeImage image_bytes = some img)
    (hp : ∀ i, 0 ≤ env.model (tensorOfImage env img) i ∧
      env.model (tensorOfImage env img) i ≤ 1)
    (hsave : db.saveRaises = false)
    (ht : 0 < env.elapsedMs) :
    ∃ r row, predict_emotion env db image_bytes source_ip =
        (.ok r, { db with
          saveAttempts := db.saveAttempts + 1,
          logRows := db.logRows ++ [row] }) ∧
      row.emotion_id = predictedEmotionId env img ∧
      1 ≤ row.emotion_id ∧ row.emotion_id ≤ 7 ∧
      EMOTION_NAME_TO_ID.lookup r.emotion_name = some row.emotion_id ∧
      0 ≤ row.confidence ∧ row.confidence ≤ 1 ∧
      0 ≤ r.confidence ∧ r.confidence ≤ 1 := by
  obtain ⟨h0, h1⟩ := hp (argmax7 (env.model (tensorOfImage env img)))
  have h0' : 0 ≤ predictedConf env img := h0
  have h1' : predictedConf env img ≤ 1 := h1
  obtain ⟨hr0, hr1⟩ := pyRound4_mem _ h0' h1'
  have hmain := predict_emotion_ok env db image_bytes source_ip img himg hr0 hr1 ht
  obtain ⟨k, hk, hk1, hk7⟩ :=
    emotionId_of_index (argmax7 (env.model (tensorOfImage env img)))
  have hk' : EMOTION_NAME_TO_ID.lookup (predictedLabel env img) = some k := hk
  have hidk : predictedEmotionId env img = k := by
    rw [predictedEmotionId, hk']
    rfl
  refine ⟨⟨predictedLabel env img, pyRound4 (predictedConf env img),
      activeTag db, env.elapsedMs⟩,
    ⟨predictedEmotionId env img, predictedConf env img, activeId db,
      env.elapsedMs, source_ip, none⟩,
    ?_, rfl,
    (by { show 1 ≤ predictedEmotionId env img; omega }),
    (by { show predictedEmotionId env img ≤ 7; omega }),
    ?_, h0', h1', hr0, hr1⟩
  · rw [hmain]
    simp [save_prediction, hsave]
  · show EMOTION_NAME_TO_ID.lookup (predictedLabel env img) =
      some (predictedEmotionId env img)
    rw [hk', hidk]

/-- Witness for the amended C2 at a concrete healthy database. -/
theorem c2_one_row_valid_id_confidence_witness :
    ∃ r row, predict_emotion testEnv emptyDb [0] none =
        (.ok r, { emptyDb with
          saveAttempts := emptyDb.saveAttempts + 1,
          logRows := emptyDb.logRows ++ [row] }) ∧
      row.emotion_id = predictedEmotionId testEnv testImage ∧
      1 ≤ row.emotion_id ∧ row.emotion_id ≤ 7 ∧
      EMOTION_NAME_TO_ID.lookup r.emotion_name = some row.emotion_id ∧
      0 ≤ row.confidence ∧ row.confidence ≤ 1 ∧
      0 ≤ r.confidence ∧ r.confidence ≤ 1 :=
  c2_one_row_valid_id_confidence testEnv emptyDb [0] none testImage rfl
    (by decide) rfl (by decide)

/-- C3: if the persistence step raises while writing the log row,
`predict_emotion` still returns the very same successful
`PredictionResponse` (same label, confidence, model tag and elapsed time)
it would have returned without the failure; the persistence error is
never propagated. -/
theorem c3_persistence_failure_swallowed (env : Env) (db : DbState)
    (image_bytes : List Nat) (source_ip : Option String) (img : RawImage)
    (himg : env.decodeImage image_bytes = some img)
    (hp : ∀ i, 0 ≤ env.model (tensorOfImage env img) i ∧
      env.model (tensorOfImage env img) i ≤ 1)
    (ht : 0 < env.elapsedMs) :
    (∃ r, (predict_emotion env { db with saveRaises := false }
        image_bytes source_ip).1 = .ok r) ∧
    (predict_emotion env { db with saveRaises := true }
        image_bytes source_ip).1 =
      (predict_emotion env { db with saveRaises := false }
        image_bytes source_ip).1 ∧
    (predict_emotion env { db with saveRaises := true }
        image_bytes source_ip).2.logRows = db.logRows := by
  obtain ⟨h0, h1⟩ := hp (argmax7 (env.model (tensorOfImage env img)))
  obtain ⟨hr0, hr1⟩ := pyRound4_mem (predictedConf env img) h0 h1
  have hfail := predict_emotion_ok env { db with saveRaises := true }
    image_bytes source_ip img himg hr0 hr1 ht
  have hok := predict_emotion_ok env { db with saveRaises := false }
    image_bytes source_ip img himg hr0 hr1 ht
  refine ⟨⟨_, by rw [hok]⟩, ?_, ?_⟩
  · rw [hfail, hok]
    rfl
  · rw [hfail]
    simp [save_prediction]

/-- Witness for C3 at a concrete run: the response under a failing save
equals the response under a healthy save. -/
theorem c3_persistence_failure_swallowed_witness :
    (∃ r, (predict_emotion testEnv { emptyDb with saveRaises := false }
        [0] none).1 = .ok r) ∧
    (predict_emotion testEnv { emptyDb with saveRaises := true }
        [0] none).1 =
      (predict_emotion testEnv { emptyDb with saveRaises := false }
        [0] none).1 ∧
    (predict_emotion testEnv { emptyDb with saveRaises := true }
        [0] none).2.logRows = emptyDb.logRows :=
  c3_persistence_failure_swallowed testEnv emptyDb [0] none testImage rfl
    (by decide) (by decide)

/-- C7: when the active-model lookup finds no row with status "01" or the
query itself raises, `predict_emotion` does not fail: it returns a
successful response stamped with the hardcoded default tag "v1.0.0", and
the saved row (when the save succeeds) carries the default model id 1. -/
theorem c7_active_model_fallback (env : Env) (db : DbState)
    (image_bytes : List Nat) (source_ip : Option String) (img : RawImage)
    (himg : env.decodeImage image_bytes = some img)
    (hp : ∀ i, 0 ≤ env.model (tensorOfImage env img) i ∧
      env.model (tensorOfImage env img) i ≤ 1)
    (ht : 0 < env.elapsedMs)
    (hnone : db.queryRaises = true ∨
      db.modelRows.filter (fun m => m.model_status = "01") = []) :
    ∃ r, (predict_emotion env db image_bytes source_ip).1 = .ok r ∧
      r.model_version_tag = "v1.0.0" ∧
      (db.saveRaises = false →
        ∃ row, (predict_emotion env db image_bytes source_ip).2.logRows =
          db.logRows ++ [row] ∧ row.model_id = 1) := by
  obtain ⟨h0, h1⟩ := hp (argmax7 (env.model (tensorOfImage env img)))
  obtain ⟨hr0, hr1⟩ := pyRound4_mem (predictedConf env img) h0 h1
  have hmain := predict_emotion_ok env db image_bytes source_ip img himg hr0 hr1 ht
  have hact : get_active_model db = none := by
    rcases hnone with h | h <;> simp [get_active_model, h]
  have hTag : activeTag db = "v1.0.0" := by simp [activeTag, hact]
  have hId : activeId db = 1 := by simp [activeId, hact]
  refine ⟨⟨predictedLabel env img, pyRound4 (predictedConf env img),
      activeTag db, env.elapsedMs⟩, by rw [hmain], hTag, ?_⟩
  intro hsave
  refine ⟨⟨predictedEmotionId env img, predictedConf env img, activeId db,
    env.elapsedMs, source_ip, none⟩, ?_, hId⟩
  rw [hmain]
  simp [save_prediction, hsave]

/-- Witness for C7: a database with no model rows at all falls back to
tag "v1.0.0" and id 1. -/
theorem c7_active_model_fallback_witness :
    ∃ r, (predict_emotion testEnv emptyDb [0] none).1 = .ok r ∧
      r.model_version_tag = "v1.0.0" ∧
      (emptyDb.saveRaises = false →
        ∃ row, (predict_emotion testEnv emptyDb [0] none).2.logRows =
          emptyDb.logRows ++ [row] ∧ row.model_id = 1) :=
  c7_active_model_fallback testEnv emptyDb [0] none testImage rfl
    (by decide) (by decide) (Or.inr rfl)

/-- C1 (code-bug evaluation): both transports pass a `user_id` keyword
argument that `PredictionService.predict_emotion` does not declare, so
every prediction request — anonymous or authenticated — raises
`TypeError` at the call: the HTTP route answers 500 (never a success with
`user_id = null`), the WebSocket predict command answers a generic
error reply instead of a prediction, and no PredictionLog row is ever
written, while the message loop itself survives. -/
theorem c1_transport_predict_always_type_errors :
    route_predict testEnv emptyDb "image/png" [7] (some "10.0.0.9") none =
      (HttpOut.httpError 500, emptyDb) ∧
    route_predict testEnv emptyDb "image/png" [7] (some "10.0.0.9") (some 1) =
      (HttpOut.httpError 500, emptyDb) ∧
    (ws_step testEnv emptyDb (some "10.0.0.9")
        (some (Json.obj [("command", Json.str "predict"),
          ("image", Json.str "aGk=")]))).reply =
      WsReply.error "Error interno del servidor" ∧
    (ws_step testEnv emptyDb (some "10.0.0.9")
        (some (Json.obj [("command", Json.str "predict"),
          ("image", Json.str "aGk=")]))).db = emptyDb ∧
    (ws_step testEnv emptyDb (some "10.0.0.9")
        (some (Json.obj [("command", Json.str "predict"),
          ("image", Json.str "aGk=")]))).continues = true := by
  refine ⟨rfl, rfl, rfl, rfl, rfl⟩

/-- C8 (counterexample): a malformed (non-JSON) payload does get an
error-typed reply, but the handler escapes the message loop and the
connection is torn down — refuting "keeps the connection open continuing
the message loop" for malformed payloads. -/
theorem c8_malformed_payload_ends_loop_counterexample :
    (ws_step testEnv emptyDb none none).reply.rtype = "error" ∧
    (ws_step testEnv emptyDb none none).continues = false := ⟨rfl, rfl⟩

/-- C8 (amended): for every well-formed JSON object message whose
`command` is a string outside the four fixed verbs, the handler sends an
unknown-command reply of type `error`, keeps the message loop running and
leaves the database untouched; a malformed or non-object payload instead
gets one error reply from the outer handler and ends the loop. -/
theorem c8_unknown_command_error_reply_loop_continues (env : Env)
    (db : DbState) (clientIp : Option String)
    (fields : List (String × Json)) (c : String)
    (hc : fields.lookup "command" = some (Json.str c))
    (hcmd : pyLower c ∉ ["predict", "emotions", "model_info", "health"]) :
    (ws_step env db clientIp (some (Json.obj fields))).reply =
      WsReply.error ("Comando desconocido: " ++ pyLower c) ∧
    (ws_step env db clientIp (some (Json.obj fields))).continues = true ∧
    (ws_step env db clientIp (some (Json.obj fields))).db = db := by
  have h1 : ¬ pyLower c = "predict" := fun h => hcmd (by rw [h]; simp)
  have h2 : ¬ pyLower c = "emotions" := fun h => hcmd (by rw [h]; simp)
  have h3 : ¬ pyLower c = "model_info" := fun h => hcmd (by rw [h]; simp)
  have h4 : ¬ pyLower c = "health" := fun h => hcmd (by rw [h]; simp)
  refine ⟨?_, ?_, ?_⟩ <;> simp [ws_step, hc, h1, h2, h3, h4]

/-- Witness for the amended C8 at a concrete unknown command. -/
theorem c8_unknown_command_error_reply_loop_continues_witness :
    (ws_step testEnv emptyDb none
        (some (Json.obj [("command", Json.str "JUMP")]))).reply =
      WsReply.error ("Comando desconocido: " ++ pyLower "JUMP") ∧
    (ws_step testEnv emptyDb none
        (some (Json.obj [("command", Json.str "JUMP")]))).continues = true ∧
    (ws_step testEnv emptyDb none
        (some (Json.obj [("command", Json.str "JUMP")]))).db = emptyDb :=
  c8_unknown_command_error_reply_loop_continues testEnv emptyDb none
    [("command", Json.str "JUMP")] "JUMP" rfl (by decide)

/-- C9: for a registered active user, login with the correct username and
password returns a token that verifies (before its expiry) to a payload
whose `sub` claim is that same username; login with a wrong password
returns a 401 authentication failure and no token. -/
theorem c9_login_roundtrip_and_wrong_password_rejected (env : Env)
    (users : List UserRow) (u : UserRow) (password wrong : String)
    (hfind : get_user_by_username users u.username = some u)
    (hpw : env.pwdVerify password u.hashed_password = true)
    (hwrong : env.pwdVerify wrong u.hashed_password = false)
    (hactive : u.is_active = true) :
    (∃ t, login env users u.username password = .token t ∧
      ∀ later, later < t.exp →
        ∃ claims, verify_token t later = some claims ∧
          claims.lookup "sub" = some u.username) ∧
    login env users u.username wrong = .unauthorized := by
  constructor
  · refine ⟨create_access_token [("sub", u.username)]
      (some ACCESS_TOKEN_EXPIRE_MINUTES) env.now, ?_, ?_⟩
    · simp [login, authenticate_user, hfind, hpw, hactive]
    · intro later hl
      refine ⟨[("sub", u.username)], ?_, rfl⟩
      rw [verify_token, if_pos ⟨rfl, hl⟩]
      rfl
  · simp [login, authenticate_user, hfind, hwrong]

/-- Witness for C9: the concrete user "alice" with password "pw". -/
theorem c9_login_roundtrip_and_wrong_password_rejected_witness :
    (∃ t, login testEnv [aliceUser] aliceUser.username "pw" = .token t ∧
      ∀ later, later < t.exp →
        ∃ claims, verify_token t later = some claims ∧
          claims.lookup "sub" = some aliceUser.username) ∧
    login testEnv [aliceUser] aliceUser.username "nope" = .unauthorized :=
  c9_login_roundtrip_and_wrong_password_rejected testEnv [aliceUser]
    aliceUser "pw" "nope" (by decide) (by decide) (by decide) rfl

end VisionAI
